import Mathlib

/-! Firebase-auth middleware and photo lifecycle hooks

A shallow embedding of two JavaScript modules of the repository:

* `src/middlewares/firebase-auth.js`, the Koa middleware that resolves the
  bearer token of a request to a user record, and
* `src/api/photo/content-types/photo/lifecycles.js`, of which `beforeUpdate`
  maintains `approved_at`, `rejected_at` and `rejection_reason`.

JavaScript control flow (`try`/`catch`, `return next()`, falling off the end of
a block) is kept explicit through `Signal`; the services of the host framework
(`jwtService.verify`, `entityService.findOne`, `entityService.findMany`,
`strapi.firebase`) are parameters whose calls may return or throw.  Calls on
`console` only write diagnostics and are left out.
-/

namespace StrapiBlog

/-! ## JavaScript control flow -/

/-- Result of awaiting a call of a host service: a value, or an exception. -/
inductive Outcome (α : Type) where
  | returns (a : α)
  | throws (e : String)
deriving DecidableEq

/-- How a block of statements ends: it runs to its last statement (`done`),
it executes a `return` statement (`returned`), or an exception leaves it
(`thrown`). -/
inductive Signal where
  | done
  | returned
  | thrown (e : String)
deriving DecidableEq

/-- The statement `try { body } catch (e) { handler }` over a state `σ`: the
handler runs exactly when an exception leaves the body, on the state the body
reached. -/
def tryCatch {σ : Type} (body : σ → Signal × σ) (handler : String → σ → Signal × σ)
    (s : σ) : Signal × σ :=
  match body s with
  | (Signal.thrown e, s1) => handler e s1
  | r => r

/-! ## The firebase-auth middleware -/

/-- User record of the `plugin::users-permissions.user` collection. -/
structure Identity where
  id : Nat
  username : String
  email : String
  firebaseUid : Option String
  blocked : Bool
  role : Option String
deriving DecidableEq

/-- Decoded Firebase ID token; `uid` may be missing. -/
structure DecodedToken where
  uid : Option String
deriving DecidableEq

/-- The services the middleware reads from `strapi`.

* `jwtVerify` is `strapi.plugins['users-permissions'].services.jwt.verify`
  followed by the destructuring `const { id } = ...`: its value is the `id`
  property of the payload (`none` when the payload has none), and a payload
  that cannot be destructured counts as a throw;
* `findOne` is `strapi.entityService.findOne` on the user collection
  (`none` is `null`);
* `firebaseApps` is `strapi.firebase?.apps?.length` (`none` is `undefined`);
* `verifyIdToken` is `strapi.firebase.auth().verifyIdToken` (`none` is a
  falsy decoded token);
* `findMany` is `strapi.entityService.findMany` on the user collection,
  filtered by `firebaseUid` (`none` is a value without a `length`). -/
structure Strapi where
  jwtVerify : String → Outcome (Option Nat)
  findOne : Nat → Outcome (Option Identity)
  firebaseApps : Option Nat
  verifyIdToken : String → Outcome (Option DecodedToken)
  findMany : String → Outcome (Option (List Identity))

/-- Observable steps of one run of the middleware, in the order they happen. -/
inductive Event where
  | jwtVerify (token : String)
  | findOne (id : Nat)
  | firebaseCheck
  | verifyIdToken (token : String)
  | findMany (uid : String)
  | setUser (u : Identity)
  | next
deriving DecidableEq

/-- Request context: `ctx.state.user` and the steps taken so far. -/
structure Ctx where
  user : Option Identity
  trace : List Event
deriving DecidableEq

/-- Append a step to the trace. -/
def Ctx.emit (c : Ctx) (e : Event) : Ctx :=
  { c with trace := c.trace ++ [e] }

/-- The assignment `ctx.state.user = u`. -/
def Ctx.assignUser (c : Ctx) (u : Identity) : Ctx :=
  { user := some u, trace := c.trace ++ [Event.setUser u] }

/-- The statement `return next()`.  `next` is the downstream dispatcher of
Koa: it hands back a promise and does not throw synchronously, and the
middleware returns that promise without awaiting it, so what happens
downstream is outside every `try` of the middleware. -/
def callNext (c : Ctx) : Signal × Ctx :=
  (Signal.returned, c.emit Event.next)

/-- JavaScript truthiness of a number that may be `undefined`. -/
def truthyNum : Option Nat → Bool
  | some n => n != 0
  | none => false

/-- JavaScript truthiness of a string that may be `undefined`. -/
def truthyStr : Option String → Bool
  | some s => s != ""
  | none => false

/-- First-occurrence removal on character lists: what
`String.prototype.replace(pat, '')` does for a string pattern. -/
def removeFirstChars (pat : List Char) : List Char → List Char
  | [] => []
  | c :: cs =>
    if pat.isPrefixOf (c :: cs) then (c :: cs).drop pat.length
    else c :: removeFirstChars pat cs

/-- The expression `header.replace('Bearer ', '')`. -/
def stripBearer (header : String) : String :=
  String.mk (removeFirstChars "Bearer ".toList header.toList)

/-- Line 6: `ctx.request.header.authorization?.replace('Bearer ', '')`. -/
def extractToken (authorization : Option String) : Option String :=
  authorization.map stripBearer

/-- Lines 16 to 28, the body of the inner `try`: Strategy A. -/
def strategyA (S : Strapi) (token : String) (c : Ctx) : Signal × Ctx :=
  let c1 := c.emit (Event.jwtVerify token)
  match S.jwtVerify token with
  | Outcome.throws e => (Signal.thrown e, c1)
  | Outcome.returns payloadId =>
    if truthyNum payloadId then
      match payloadId with
      | none => (Signal.done, c1)
      | some id =>
        let c2 := c1.emit (Event.findOne id)
        match S.findOne id with
        | Outcome.throws e => (Signal.thrown e, c2)
        | Outcome.returns none => (Signal.done, c2)
        | Outcome.returns (some user) =>
          if !user.blocked then callNext (c2.assignUser user)
          else (Signal.done, c2)
    else (Signal.done, c1)

/-- Lines 32 to 65, the body of the `try` inside `catch (jwtError)`:
Strategy B. -/
def strategyB (S : Strapi) (token : String) (c : Ctx) : Signal × Ctx :=
  let c1 := c.emit Event.firebaseCheck
  if !truthyNum S.firebaseApps then callNext c1
  else
    let c2 := c1.emit (Event.verifyIdToken token)
    match S.verifyIdToken token with
    | Outcome.throws e => (Signal.thrown e, c2)
    | Outcome.returns none => (Signal.done, c2)
    | Outcome.returns (some decoded) =>
      if truthyStr decoded.uid then
        match decoded.uid with
        | none => (Signal.done, c2)
        | some uid =>
          let c3 := c2.emit (Event.findMany uid)
          match S.findMany uid with
          | Outcome.throws e => (Signal.thrown e, c3)
          | Outcome.returns none => (Signal.thrown "TypeError: users.length", c3)
          | Outcome.returns (some []) => (Signal.done, c3)
          | Outcome.returns (some (first :: _)) =>
            if !first.blocked then callNext (c3.assignUser first)
            else (Signal.done, c3)
      else (Signal.done, c2)

/-- Lines 67 to 93, the body of `catch (firebaseError)`: the token is decoded
for diagnostics inside a `try` of its own whose `catch` only logs, so the
block always runs to its end and touches nothing but the console. -/
def analyseToken (_e : String) (c : Ctx) : Signal × Ctx :=
  (Signal.done, c)

/-- Lines 13 to 98: the outer `try`, whose `catch (error)` only logs. -/
def resolveBody (S : Strapi) (token : String) : Ctx → Signal × Ctx :=
  tryCatch
    (tryCatch (strategyA S token)
      (fun _jwtError => tryCatch (strategyB S token) analyseToken))
    (fun _error c => (Signal.done, c))

/-- The middleware `async (ctx, next) => ...` of `firebase-auth.js`, run on a
request whose `Authorization` header is `authorization` and whose
`ctx.state.user` is `user0`. -/
def middleware (S : Strapi) (authorization : Option String) (user0 : Option Identity) :
    Signal × Ctx :=
  let c0 : Ctx := { user := user0, trace := [] }
  match extractToken authorization with
  | none => callNext c0
  | some token =>
    if token = "" then callNext c0
    else
      match resolveBody S token c0 with
      | (Signal.done, c) => callNext c
      | r => r

/-! ## The photo lifecycle hook `beforeUpdate` -/

/-- A property of a JavaScript object: missing (`undefined`), `null`, or a
value. -/
inductive Field (α : Type) where
  | absent
  | null
  | val (a : α)
deriving DecidableEq

/-- JavaScript truthiness of a string-valued property. -/
def Field.truthyStr : Field String → Bool
  | Field.val s => s != ""
  | _ => false

/-- The object `event.params.data` of an update of a photo: the four
properties the hook reads or writes, and every other property in `extra`.
Dates are clock readings. -/
structure UpdateData where
  status : Field String
  approved_at : Field Nat
  rejected_at : Field Nat
  rejection_reason : Field String
  extra : List (String × String)
deriving DecidableEq

/-- Stored record of the `api::photo.photo` collection. -/
structure Photo where
  id : Nat
  status : Field String
  approved_at : Field Nat
  rejected_at : Field Nat
  rejection_reason : Field String
deriving DecidableEq

/-- Lines 35 to 55: the assignments chosen by the new status. -/
def applyTransition (now : Nat) (newStatus : Field String) (data : UpdateData) : UpdateData :=
  if newStatus = Field.val "approved" then
    { data with approved_at := Field.val now, rejected_at := Field.null,
                rejection_reason := Field.null }
  else if newStatus = Field.val "rejected" then
    { data with rejected_at := Field.val now, approved_at := Field.null }
  else if newStatus = Field.val "pending" then
    { data with approved_at := Field.null, rejected_at := Field.null,
                rejection_reason := Field.null }
  else data

/-- Lines 17 to 69, the body of the `try` of `beforeUpdate`.  `findOne` is
`strapi.entityService.findOne('api::photo.photo', _)`, `now` what `new Date()`
reads, `whereId` the property `where.id`. -/
def beforeUpdateBody (findOne : Nat → Outcome (Option Photo)) (now : Nat)
    (whereId : Option Nat) (data : UpdateData) : Signal × UpdateData :=
  if data.status.truthyStr && truthyNum whereId then
    match whereId with
    | none => (Signal.done, data)
    | some id =>
      let nextStatus := data.status
      match findOne id with
      | Outcome.throws e => (Signal.thrown e, data)
      | Outcome.returns none => (Signal.done, data)
      | Outcome.returns (some currentPhoto) =>
        if currentPhoto.status ≠ nextStatus then
          (Signal.done, { applyTransition now nextStatus data with status := nextStatus })
        else (Signal.done, data)
  else (Signal.done, data)

/-- The hook `beforeUpdate(event)` of `lifecycles.js`: the body inside
`try`, and a `catch (error)` that only logs. -/
def beforeUpdate (findOne : Nat → Outcome (Option Photo)) (now : Nat)
    (whereId : Option Nat) (data : UpdateData) : Signal × UpdateData :=
  tryCatch (beforeUpdateBody findOne now whereId) (fun _error d => (Signal.done, d)) data

/-! ## Derived notions used in the statements -/

/-- Is the step an assignment to `ctx.state.user`? -/
def Event.isSetUser : Event → Bool
  | Event.setUser _ => true
  | _ => false

/-- Strategy B with its `catch (firebaseError)`, followed to the end of the
middleware (line 100). -/
def runB (S : Strapi) (token : String) (c : Ctx) : Signal × Ctx :=
  match tryCatch (strategyB S token) analyseToken c with
  | (Signal.done, c1) => callNext c1
  | r => r

/-- The lookup by `firebaseUid` yields nobody to attach: it throws, has no
`length`, is empty, or its first entry is blocked. -/
def noViableFirst (r : Outcome (Option (List Identity))) : Prop :=
  (∃ e, r = Outcome.throws e) ∨ r = Outcome.returns none ∨ r = Outcome.returns (some []) ∨
    ∃ first rest, r = Outcome.returns (some (first :: rest)) ∧ first.blocked = true

/-! ## Sample records and services -/

/-- A user who is not blocked. -/
def alice : Identity :=
  { id := 7, username := "alice", email := "alice@example.org", firebaseUid := some "fb-1",
    blocked := false, role := some "authenticated" }

/-- A blocked user. -/
def bob : Identity :=
  { id := 8, username := "bob", email := "bob@example.org", firebaseUid := some "fb-1",
    blocked := true, role := some "authenticated" }

/-- Services for which the token `"tok"` is a session token of the blocked
user `bob` and, at the same time, a Firebase token of subject `"fb-1"`. -/
def blockedSessionServices : Strapi :=
  { jwtVerify := fun _ => Outcome.returns (some 8)
    findOne := fun _ => Outcome.returns (some bob)
    firebaseApps := some 1
    verifyIdToken := fun _ => Outcome.returns (some { uid := some "fb-1" })
    findMany := fun _ => Outcome.returns (some [alice]) }

/-- Services whose user store is unreachable: both lookups throw. -/
def faultyStoreServices : Strapi :=
  { jwtVerify := fun _ => Outcome.returns (some 8)
    findOne := fun _ => Outcome.throws "ECONNREFUSED"
    firebaseApps := some 1
    verifyIdToken := fun _ => Outcome.returns (some { uid := some "fb-1" })
    findMany := fun _ => Outcome.throws "ECONNREFUSED" }

/-- Services that accept session tokens of `alice`. -/
def sessionServices : Strapi :=
  { jwtVerify := fun _ => Outcome.returns (some 7)
    findOne := fun _ => Outcome.returns (some alice)
    firebaseApps := some 1
    verifyIdToken := fun _ => Outcome.throws "auth/argument-error"
    findMany := fun _ => Outcome.returns (some []) }

/-- Services that reject every token and have no Firebase app. -/
def rejectingServices : Strapi :=
  { jwtVerify := fun _ => Outcome.throws "jwt malformed"
    findOne := fun _ => Outcome.returns none
    firebaseApps := none
    verifyIdToken := fun _ => Outcome.throws "auth/argument-error"
    findMany := fun _ => Outcome.returns (some []) }

/-- Services with a Firebase token of subject `"fb-1"`, a subject shared by the
blocked `bob` (first in the store) and by `alice`. -/
def duplicateUidServices : Strapi :=
  { jwtVerify := fun _ => Outcome.throws "jwt malformed"
    findOne := fun _ => Outcome.returns none
    firebaseApps := some 1
    verifyIdToken := fun _ => Outcome.returns (some { uid := some "fb-1" })
    findMany := fun _ => Outcome.returns (some [bob, alice]) }

/-- Services with a Firebase token of subject `"fb-1"`, held by `alice` alone. -/
def firebaseServices : Strapi :=
  { jwtVerify := fun _ => Outcome.throws "jwt malformed"
    findOne := fun _ => Outcome.returns none
    firebaseApps := some 1
    verifyIdToken := fun _ => Outcome.returns (some { uid := some "fb-1" })
    findMany := fun _ => Outcome.returns (some [alice, bob]) }

/-- A stored photo awaiting moderation. -/
def pendingPhoto : Photo :=
  { id := 3, status := Field.val "pending", approved_at := Field.null,
    rejected_at := Field.null, rejection_reason := Field.null }

/-- Photo store holding `pendingPhoto` under every id. -/
def photoStore : Nat → Outcome (Option Photo) :=
  fun _ => Outcome.returns (some pendingPhoto)

/-- Photo store that cannot be reached. -/
def brokenPhotoStore : Nat → Outcome (Option Photo) :=
  fun _ => Outcome.throws "ECONNREFUSED"

/-- Update that rejects a photo, with a reason. -/
def rejectUpdate : UpdateData :=
  { status := Field.val "rejected", approved_at := Field.absent, rejected_at := Field.absent,
    rejection_reason := Field.val "blurred", extra := [("caption", "sunset")] }

/-! ## Path lemmas for the middleware -/

theorem runB_unavailable (S : Strapi) (tok : String) (c : Ctx)
    (h : truthyNum S.firebaseApps = false) :
    runB S tok c = (Signal.returned, ⟨c.user, c.trace ++ [Event.firebaseCheck, Event.next]⟩) := by
  simp [runB, tryCatch, strategyB, callNext, Ctx.emit, h]

theorem runB_verify_throws (S : Strapi) (tok : String) (c : Ctx) (e : String)
    (h : truthyNum S.firebaseApps = true) (hv : S.verifyIdToken tok = Outcome.throws e) :
    runB S tok c = (Signal.returned,
      ⟨c.user, c.trace ++ [Event.firebaseCheck, Event.verifyIdToken tok, Event.next]⟩) := by
  simp [runB, tryCatch, strategyB, analyseToken, callNext, Ctx.emit, h, hv]

theorem runB_no_uid (S : Strapi) (tok : String) (c : Ctx)
    (h : truthyNum S.firebaseApps = true)
    (hv : S.verifyIdToken tok = Outcome.returns none ∨
      ∃ d, S.verifyIdToken tok = Outcome.returns (some d) ∧ truthyStr d.uid = false) :
    runB S tok c = (Signal.returned,
      ⟨c.user, c.trace ++ [Event.firebaseCheck, Event.verifyIdToken tok, Event.next]⟩) := by
  rcases hv with hv | ⟨d, hv, hd⟩
  · simp [runB, tryCatch, strategyB, callNext, Ctx.emit, h, hv]
  · simp [runB, tryCatch, strategyB, callNext, Ctx.emit, h, hv, hd]

theorem runB_no_viable (S : Strapi) (tok uid : String) (c : Ctx)
    (h : truthyNum S.firebaseApps = true)
    (hv : S.verifyIdToken tok = Outcome.returns (some ⟨some uid⟩)) (hu : uid ≠ "")
    (hm : noViableFirst (S.findMany uid)) :
    runB S tok c = (Signal.returned,
      ⟨c.user, c.trace ++ [Event.firebaseCheck, Event.verifyIdToken tok, Event.findMany uid,
        Event.next]⟩) := by
  rcases hm with ⟨e, hm⟩ | hm | hm | ⟨first, rest, hm, hb⟩ <;>
    simp [runB, tryCatch, strategyB, analyseToken, callNext, Ctx.emit, truthyStr, h, hv, hu, hm, *]

theorem runB_viable (S : Strapi) (tok uid : String) (c : Ctx) (first : Identity)
    (rest : List Identity) (h : truthyNum S.firebaseApps = true)
    (hv : S.verifyIdToken tok = Outcome.returns (some ⟨some uid⟩)) (hu : uid ≠ "")
    (hm : S.findMany uid = Outcome.returns (some (first :: rest)))
    (hb : first.blocked = false) :
    runB S tok c = (Signal.returned,
      ⟨some first, c.trace ++ [Event.firebaseCheck, Event.verifyIdToken tok, Event.findMany uid,
        Event.setUser first, Event.next]⟩) := by
  simp [runB, tryCatch, strategyB, callNext, Ctx.emit, Ctx.assignUser, truthyStr, h, hv, hu, hm, hb]

theorem noViableFirst_or (r : Outcome (Option (List Identity))) :
    noViableFirst r ∨ ∃ first rest, r = Outcome.returns (some (first :: rest)) ∧
      first.blocked = false := by
  unfold noViableFirst
  rcases r with (_ | _ | ⟨first, rest⟩) | e
  · simp
  · simp
  · cases hb : first.blocked <;> simp [hb]
  · simp

theorem middleware_no_token (S : Strapi) (auth : Option String) (u0 : Option Identity)
    (h : extractToken auth = none ∨ extractToken auth = some "") :
    middleware S auth u0 = (Signal.returned, ⟨u0, [Event.next]⟩) := by
  rcases h with h | h <;> simp [middleware, h, callNext, Ctx.emit]

theorem middleware_jwt_throws (S : Strapi) (auth : Option String) (u0 : Option Identity)
    (tok e : String) (ht : extractToken auth = some tok) (hne : tok ≠ "")
    (hv : S.jwtVerify tok = Outcome.throws e) :
    middleware S auth u0 = runB S tok ⟨u0, [Event.jwtVerify tok]⟩ := by
  simp only [middleware, ht, hne, if_false, resolveBody, runB]
  simp only [tryCatch, strategyA, hv, Ctx.emit, List.nil_append]
  rcases hB : strategyB S tok ⟨u0, [Event.jwtVerify tok]⟩ with ⟨s, c⟩
  cases s <;> simp [analyseToken]

theorem middleware_findOne_throws (S : Strapi) (auth : Option String) (u0 : Option Identity)
    (tok e : String) (id : Nat) (ht : extractToken auth = some tok) (hne : tok ≠ "")
    (hv : S.jwtVerify tok = Outcome.returns (some id)) (hid : id ≠ 0)
    (hf : S.findOne id = Outcome.throws e) :
    middleware S auth u0 = runB S tok ⟨u0, [Event.jwtVerify tok, Event.findOne id]⟩ := by
  simp only [middleware, ht, hne, if_false, resolveBody, runB]
  simp only [tryCatch, strategyA, hv, hf, Ctx.emit, List.nil_append, truthyNum, bne_iff_ne, ne_eq,
    hid, not_false_eq_true, if_true, List.singleton_append]
  rcases hB : strategyB S tok ⟨u0, [Event.jwtVerify tok, Event.findOne id]⟩ with ⟨s, c⟩
  cases s <;> simp [analyseToken]

theorem middleware_jwt_no_id (S : Strapi) (auth : Option String) (u0 : Option Identity)
    (tok : String) (pid : Option Nat) (ht : extractToken auth = some tok) (hne : tok ≠ "")
    (hv : S.jwtVerify tok = Outcome.returns pid) (hid : truthyNum pid = false) :
    middleware S auth u0 = (Signal.returned, ⟨u0, [Event.jwtVerify tok, Event.next]⟩) := by
  simp [middleware, ht, hne, resolveBody, tryCatch, strategyA, hv, hid, callNext, Ctx.emit]

theorem middleware_jwt_no_user (S : Strapi) (auth : Option String) (u0 : Option Identity)
    (tok : String) (id : Nat) (ht : extractToken auth = some tok) (hne : tok ≠ "")
    (hv : S.jwtVerify tok = Outcome.returns (some id)) (hid : id ≠ 0)
    (hf : S.findOne id = Outcome.returns none ∨
      ∃ u, S.findOne id = Outcome.returns (some u) ∧ u.blocked = true) :
    middleware S auth u0 =
      (Signal.returned, ⟨u0, [Event.jwtVerify tok, Event.findOne id, Event.next]⟩) := by
  rcases hf with hf | ⟨u, hf, hb⟩ <;>
    simp [middleware, ht, hne, resolveBody, tryCatch, strategyA, hv, hid, hf, callNext, Ctx.emit,
      truthyNum, *]

theorem middleware_jwt_user (S : Strapi) (auth : Option String) (u0 : Option Identity)
    (tok : String) (id : Nat) (u : Identity) (ht : extractToken auth = some tok) (hne : tok ≠ "")
    (hv : S.jwtVerify tok = Outcome.returns (some id)) (hid : id ≠ 0)
    (hf : S.findOne id = Outcome.returns (some u)) (hb : u.blocked = false) :
    middleware S auth u0 =
      (Signal.returned,
        ⟨some u, [Event.jwtVerify tok, Event.findOne id, Event.setUser u, Event.next]⟩) := by
  simp [middleware, ht, hne, resolveBody, tryCatch, strategyA, hv, hid, hf, hb, callNext, Ctx.emit,
    Ctx.assignUser, truthyNum]

theorem runB_shape (S : Strapi) (tok : String) (c : Ctx) :
    runB S tok c = (Signal.returned, ⟨c.user, c.trace ++ [Event.firebaseCheck, Event.next]⟩) ∨
    runB S tok c = (Signal.returned,
      ⟨c.user, c.trace ++ [Event.firebaseCheck, Event.verifyIdToken tok, Event.next]⟩) ∨
    (∃ uid, noViableFirst (S.findMany uid) ∧
      runB S tok c = (Signal.returned,
        ⟨c.user, c.trace ++ [Event.firebaseCheck, Event.verifyIdToken tok, Event.findMany uid,
          Event.next]⟩)) ∨
    (∃ uid first rest, S.findMany uid = Outcome.returns (some (first :: rest)) ∧
      first.blocked = false ∧
      runB S tok c = (Signal.returned,
        ⟨some first, c.trace ++ [Event.firebaseCheck, Event.verifyIdToken tok,
          Event.findMany uid, Event.setUser first, Event.next]⟩)) := by
  cases h : truthyNum S.firebaseApps with
  | false => exact Or.inl (runB_unavailable S tok c h)
  | true =>
    rcases hv : S.verifyIdToken tok with (_ | ⟨⟨_ | uid⟩⟩) | e
    · exact Or.inr (Or.inl (runB_no_uid S tok c h (Or.inl hv)))
    · exact Or.inr (Or.inl (runB_no_uid S tok c h (Or.inr ⟨_, hv, rfl⟩)))
    · by_cases hu : uid = ""
      · refine Or.inr (Or.inl (runB_no_uid S tok c h (Or.inr ⟨_, hv, ?_⟩)))
        simp [truthyStr, hu]
      · rcases noViableFirst_or (S.findMany uid) with hm | ⟨first, rest, hm, hb⟩
        · exact Or.inr (Or.inr (Or.inl ⟨uid, hm, runB_no_viable S tok uid c h hv hu hm⟩))
        · exact Or.inr (Or.inr (Or.inr
            ⟨uid, first, rest, hm, hb, runB_viable S tok uid c first rest h hv hu hm hb⟩))
    · exact Or.inr (Or.inl (runB_verify_throws S tok c e h hv))

theorem middleware_shape (S : Strapi) (auth : Option String) (u0 : Option Identity) :
    middleware S auth u0 = (Signal.returned, ⟨u0, [Event.next]⟩) ∨
    (∃ tok, middleware S auth u0 = (Signal.returned, ⟨u0, [Event.jwtVerify tok, Event.next]⟩)) ∨
    (∃ tok id, (S.findOne id = Outcome.returns none ∨
        ∃ u, S.findOne id = Outcome.returns (some u) ∧ u.blocked = true) ∧
      middleware S auth u0 =
        (Signal.returned, ⟨u0, [Event.jwtVerify tok, Event.findOne id, Event.next]⟩)) ∨
    (∃ tok id u, S.findOne id = Outcome.returns (some u) ∧ u.blocked = false ∧
      middleware S auth u0 = (Signal.returned,
        ⟨some u, [Event.jwtVerify tok, Event.findOne id, Event.setUser u, Event.next]⟩)) ∨
    (∃ tok pre, (pre = [Event.jwtVerify tok] ∨
        ∃ id e, S.findOne id = Outcome.throws e ∧ pre = [Event.jwtVerify tok, Event.findOne id]) ∧
      middleware S auth u0 = runB S tok ⟨u0, pre⟩) := by
  cases ht : extractToken auth with
  | none => exact Or.inl (middleware_no_token S auth u0 (Or.inl ht))
  | some tok =>
    by_cases hne : tok = ""
    · exact Or.inl (middleware_no_token S auth u0 (Or.inr (hne ▸ ht)))
    · rcases hv : S.jwtVerify tok with pid | e
      · cases hp : truthyNum pid with
        | false =>
          exact Or.inr (Or.inl ⟨tok, middleware_jwt_no_id S auth u0 tok pid ht hne hv hp⟩)
        | true =>
          cases pid with
          | none => simp [truthyNum] at hp
          | some id =>
            have hid : id ≠ 0 := by simpa [truthyNum] using hp
            rcases hf : S.findOne id with (_ | u) | e
            · exact Or.inr (Or.inr (Or.inl ⟨tok, id, Or.inl hf,
                middleware_jwt_no_user S auth u0 tok id ht hne hv hid (Or.inl hf)⟩))
            · cases hb : u.blocked with
              | true =>
                exact Or.inr (Or.inr (Or.inl ⟨tok, id, Or.inr ⟨u, hf, hb⟩,
                  middleware_jwt_no_user S auth u0 tok id ht hne hv hid (Or.inr ⟨u, hf, hb⟩)⟩))
              | false =>
                exact Or.inr (Or.inr (Or.inr (Or.inl ⟨tok, id, u, hf, hb,
                  middleware_jwt_user S auth u0 tok id u ht hne hv hid hf hb⟩)))
            · exact Or.inr (Or.inr (Or.inr (Or.inr ⟨tok, _, Or.inr ⟨id, e, hf, rfl⟩,
                middleware_findOne_throws S auth u0 tok e id ht hne hv hid hf⟩)))
      · exact Or.inr (Or.inr (Or.inr (Or.inr ⟨tok, _, Or.inl rfl,
          middleware_jwt_throws S auth u0 tok e ht hne hv⟩)))

/-! ## Claims about the middleware -/

/-- C1, as stated, fails: with a session token of the blocked user `bob` that
is also a valid Firebase token, the middleware ends after the `findOne` lookup;
neither the availability check nor `verifyIdToken` takes place. -/
theorem blocked_session_subject_no_fallthrough :
    blockedSessionServices.jwtVerify "tok" = Outcome.returns (some 8) ∧
    blockedSessionServices.findOne 8 = Outcome.returns (some bob) ∧
    bob.blocked = true ∧
    Event.firebaseCheck ∉ (middleware blockedSessionServices (some "Bearer tok") none).2.trace ∧
    Event.verifyIdToken "tok" ∉
      (middleware blockedSessionServices (some "Bearer tok") none).2.trace ∧
    middleware blockedSessionServices (some "Bearer tok") none =
      (Signal.returned, ⟨none, [Event.jwtVerify "tok", Event.findOne 8, Event.next]⟩) := by
  decide

/-- C1, amended: when the session-token verifier accepts the token with a
subject id whose record is blocked or not found, Strategy B is not attempted;
the middleware calls `next` once after the lookup and leaves `ctx.state.user`
as it was. -/
theorem session_subject_unusable_ends_resolution (S : Strapi) (auth : Option String)
    (u0 : Option Identity) (tok : String) (id : Nat)
    (ht : extractToken auth = some tok) (hne : tok ≠ "")
    (hv : S.jwtVerify tok = Outcome.returns (some id)) (hid : id ≠ 0)
    (hf : S.findOne id = Outcome.returns none ∨
      ∃ u, S.findOne id = Outcome.returns (some u) ∧ u.blocked = true) :
    middleware S auth u0 =
        (Signal.returned, ⟨u0, [Event.jwtVerify tok, Event.findOne id, Event.next]⟩) ∧
      Event.firebaseCheck ∉ (middleware S auth u0).2.trace ∧
      (∀ t, Event.verifyIdToken t ∉ (middleware S auth u0).2.trace) ∧
      (∀ uid, Event.findMany uid ∉ (middleware S auth u0).2.trace) := by
  have h := middleware_jwt_no_user S auth u0 tok id ht hne hv hid hf
  simp [h]

theorem session_subject_unusable_ends_resolution_witness :
    middleware blockedSessionServices (some "Bearer tok") none =
        (Signal.returned, ⟨none, [Event.jwtVerify "tok", Event.findOne 8, Event.next]⟩) ∧
      Event.firebaseCheck ∉
        (middleware blockedSessionServices (some "Bearer tok") none).2.trace ∧
      (∀ t, Event.verifyIdToken t ∉
        (middleware blockedSessionServices (some "Bearer tok") none).2.trace) ∧
      (∀ uid, Event.findMany uid ∉
        (middleware blockedSessionServices (some "Bearer tok") none).2.trace) :=
  session_subject_unusable_ends_resolution blockedSessionServices (some "Bearer tok") none "tok" 8
    (by decide) (by decide) (by decide) (by decide) (Or.inr ⟨bob, by decide, by decide⟩)

/-- C2, as stated, fails: with a token present and `findOne` throwing, and
then `findMany` throwing as well, the middleware raises nothing; it ends by
`return next()`. -/
theorem store_fault_not_propagated :
    faultyStoreServices.findOne 8 = Outcome.throws "ECONNREFUSED" ∧
    faultyStoreServices.findMany "fb-1" = Outcome.throws "ECONNREFUSED" ∧
    Event.findOne 8 ∈ (middleware faultyStoreServices (some "Bearer tok") none).2.trace ∧
    Event.findMany "fb-1" ∈ (middleware faultyStoreServices (some "Bearer tok") none).2.trace ∧
    (middleware faultyStoreServices (some "Bearer tok") none).1 = Signal.returned := by
  decide

/-- C2, amended: when a token is present and a lookup in the identity store
faults, no error reaches the caller and `next` is called once.  A fault of
`findOne` in Strategy A is handled like a verification failure (the
availability check of Strategy B follows); a fault of `findMany` in Strategy B
leaves `ctx.state.user` as it was. -/
theorem store_fault_is_swallowed (S : Strapi) (auth : Option String) (u0 : Option Identity)
    (hfault : (∃ id e, Event.findOne id ∈ (middleware S auth u0).2.trace ∧
        S.findOne id = Outcome.throws e) ∨
      (∃ uid e, Event.findMany uid ∈ (middleware S auth u0).2.trace ∧
        S.findMany uid = Outcome.throws e)) :
    (middleware S auth u0).1 = Signal.returned ∧
      (middleware S auth u0).2.trace.count Event.next = 1 ∧
      ((∃ id e, Event.findOne id ∈ (middleware S auth u0).2.trace ∧
          S.findOne id = Outcome.throws e) →
        Event.firebaseCheck ∈ (middleware S auth u0).2.trace) ∧
      ((∃ uid e, Event.findMany uid ∈ (middleware S auth u0).2.trace ∧
          S.findMany uid = Outcome.throws e) →
        (middleware S auth u0).2.user = u0 ∧
          ∀ u, Event.setUser u ∉ (middleware S auth u0).2.trace) := by
  rcases middleware_shape S auth u0 with h | ⟨tok, h⟩ | ⟨tok, id, hf, h⟩ | ⟨tok, id, u, hf, hb, h⟩ |
    ⟨tok, pre, hpre, h⟩
  · simp [h] at hfault
  · simp [h] at hfault
  · rw [h] at hfault
    rcases hf with hf | ⟨u, hf, _⟩ <;> simp_all
  · rw [h] at hfault
    simp_all
  · rcases runB_shape S tok ⟨u0, pre⟩ with hB | hB | ⟨uid, hm, hB⟩ |
      ⟨uid, first, rest, hm, hb, hB⟩ <;>
      rw [hB] at h <;> rcases hpre with rfl | ⟨id, e, hf, rfl⟩ <;>
      simp_all [List.count_cons]

theorem store_fault_is_swallowed_witness :
    (middleware faultyStoreServices (some "Bearer tok") none).1 = Signal.returned ∧
      (middleware faultyStoreServices (some "Bearer tok") none).2.trace.count Event.next = 1 ∧
      ((∃ id e, Event.findOne id ∈
            (middleware faultyStoreServices (some "Bearer tok") none).2.trace ∧
          faultyStoreServices.findOne id = Outcome.throws e) →
        Event.firebaseCheck ∈
          (middleware faultyStoreServices (some "Bearer tok") none).2.trace) ∧
      ((∃ uid e, Event.findMany uid ∈
            (middleware faultyStoreServices (some "Bearer tok") none).2.trace ∧
          faultyStoreServices.findMany uid = Outcome.throws e) →
        (middleware faultyStoreServices (some "Bearer tok") none).2.user = none ∧
          ∀ u, Event.setUser u ∉
            (middleware faultyStoreServices (some "Bearer tok") none).2.trace) :=
  store_fault_is_swallowed faultyStoreServices (some "Bearer tok") none
    (Or.inl ⟨8, "ECONNREFUSED", by decide, by decide⟩)

/-- C3: whenever the middleware assigns `ctx.state.user`, the record it
assigns has `blocked = false` and is the final value of `ctx.state.user`; it
assigns at most once per request; without an assignment `ctx.state.user` stays
as it was; and a blocked record found by the `findOne` lookup of Strategy A, or
found first by the `findMany` lookup of Strategy B, leaves `ctx.state.user` as
it was. -/
theorem attached_identity_never_blocked (S : Strapi) (auth : Option String)
    (u0 : Option Identity) :
    ((middleware S auth u0).2.trace.filter Event.isSetUser).length ≤ 1 ∧
      (∀ u, Event.setUser u ∈ (middleware S auth u0).2.trace →
        u.blocked = false ∧ (middleware S auth u0).2.user = some u) ∧
      ((∀ u, Event.setUser u ∉ (middleware S auth u0).2.trace) →
        (middleware S auth u0).2.user = u0) ∧
      (∀ id u, Event.findOne id ∈ (middleware S auth u0).2.trace →
        S.findOne id = Outcome.returns (some u) → u.blocked = true →
        (middleware S auth u0).2.user = u0 ∧
          ∀ v, Event.setUser v ∉ (middleware S auth u0).2.trace) ∧
      (∀ uid u rest, Event.findMany uid ∈ (middleware S auth u0).2.trace →
        S.findMany uid = Outcome.returns (some (u :: rest)) → u.blocked = true →
        (middleware S auth u0).2.user = u0 ∧
          ∀ v, Event.setUser v ∉ (middleware S auth u0).2.trace) := by
  rcases middleware_shape S auth u0 with h | ⟨tok, h⟩ | ⟨tok, id, hf, h⟩ | ⟨tok, id, u, hf, hb, h⟩ |
    ⟨tok, pre, hpre, h⟩
  · simp [h, Event.isSetUser]
  · simp [h, Event.isSetUser]
  · simp [h, Event.isSetUser]
  · simp only [h]
    simp_all [Event.isSetUser]
  · rcases runB_shape S tok ⟨u0, pre⟩ with hB | hB | ⟨uid, hm, hB⟩ |
      ⟨uid, first, rest, hm, hb, hB⟩ <;>
      rw [hB] at h <;> rcases hpre with rfl | ⟨id, e, hf, rfl⟩ <;>
      simp only [h] <;> simp_all [Event.isSetUser, List.filter_cons]

theorem attached_identity_never_blocked_witness :
    (middleware duplicateUidServices (some "Bearer tok") (some alice)).2.user = some alice ∧
      ∀ v, Event.setUser v ∉
        (middleware duplicateUidServices (some "Bearer tok") (some alice)).2.trace :=
  (attached_identity_never_blocked duplicateUidServices (some "Bearer tok")
    (some alice)).2.2.2.2 "fb-1" bob [alice] (by decide) (by decide) (by decide)

/-- C4: when the session-token verifier accepts the token with a subject id
whose record exists and is not blocked, the middleware assigns exactly that
record to `ctx.state.user` and calls `next`; the availability check,
`verifyIdToken` and the `findMany` lookup do not take place. -/
theorem valid_session_token_attaches_user (S : Strapi) (auth : Option String)
    (u0 : Option Identity) (tok : String) (id : Nat) (u : Identity)
    (ht : extractToken auth = some tok) (hne : tok ≠ "")
    (hv : S.jwtVerify tok = Outcome.returns (some id)) (hid : id ≠ 0)
    (hf : S.findOne id = Outcome.returns (some u)) (hb : u.blocked = false) :
    middleware S auth u0 = (Signal.returned,
        ⟨some u, [Event.jwtVerify tok, Event.findOne id, Event.setUser u, Event.next]⟩) ∧
      Event.firebaseCheck ∉ (middleware S auth u0).2.trace ∧
      (∀ t, Event.verifyIdToken t ∉ (middleware S auth u0).2.trace) ∧
      (∀ uid, Event.findMany uid ∉ (middleware S auth u0).2.trace) := by
  have h := middleware_jwt_user S auth u0 tok id u ht hne hv hid hf hb
  simp [h]

theorem valid_session_token_attaches_user_witness :
    middleware sessionServices (some "Bearer tok") none = (Signal.returned,
        ⟨some alice, [Event.jwtVerify "tok", Event.findOne 7, Event.setUser alice,
          Event.next]⟩) ∧
      Event.firebaseCheck ∉ (middleware sessionServices (some "Bearer tok") none).2.trace ∧
      (∀ t, Event.verifyIdToken t ∉
        (middleware sessionServices (some "Bearer tok") none).2.trace) ∧
      (∀ uid, Event.findMany uid ∉
        (middleware sessionServices (some "Bearer tok") none).2.trace) :=
  valid_session_token_attaches_user sessionServices (some "Bearer tok") none "tok" 7 alice
    (by decide) (by decide) (by decide) (by decide) (by decide) (by decide)

/-- C5: when the `Authorization` header is absent, or nothing is left of it
once `'Bearer '` is removed, the middleware calls `next` exactly once and does
nothing else: `ctx.state.user` keeps its value and no verifier and no lookup is
called. -/
theorem absent_token_passes_through (S : Strapi) (auth : Option String) (u0 : Option Identity)
    (h : auth = none ∨ ∃ header, auth = some header ∧ stripBearer header = "") :
    middleware S auth u0 = (Signal.returned, ⟨u0, [Event.next]⟩) ∧
      (middleware S auth u0).2.trace.count Event.next = 1 ∧
      (middleware S auth u0).2.user = u0 ∧
      (∀ t, Event.jwtVerify t ∉ (middleware S auth u0).2.trace) ∧
      (∀ t, Event.verifyIdToken t ∉ (middleware S auth u0).2.trace) ∧
      (∀ id, Event.findOne id ∉ (middleware S auth u0).2.trace) ∧
      (∀ uid, Event.findMany uid ∉ (middleware S auth u0).2.trace) := by
  have hm : middleware S auth u0 = (Signal.returned, ⟨u0, [Event.next]⟩) := by
    apply middleware_no_token
    rcases h with rfl | ⟨header, rfl, hs⟩
    · exact Or.inl rfl
    · exact Or.inr (by simp [extractToken, hs])
  simp [hm]

theorem absent_token_passes_through_witness :
    middleware sessionServices (some "Bearer ") none = (Signal.returned, ⟨none, [Event.next]⟩) ∧
      (middleware sessionServices (some "Bearer ") none).2.trace.count Event.next = 1 ∧
      (middleware sessionServices (some "Bearer ") none).2.user = none ∧
      (∀ t, Event.jwtVerify t ∉ (middleware sessionServices (some "Bearer ") none).2.trace) ∧
      (∀ t, Event.verifyIdToken t ∉
        (middleware sessionServices (some "Bearer ") none).2.trace) ∧
      (∀ id, Event.findOne id ∉ (middleware sessionServices (some "Bearer ") none).2.trace) ∧
      (∀ uid, Event.findMany uid ∉
        (middleware sessionServices (some "Bearer ") none).2.trace) :=
  absent_token_passes_through sessionServices (some "Bearer ") none
    (Or.inr ⟨"Bearer ", rfl, by decide⟩)

/-- C6: when a token is present, the session-token verifier rejects it, and
Strategy B is unavailable or `verifyIdToken` rejects the token, the middleware
raises nothing, leaves `ctx.state.user` as it was and calls `next` exactly
once, with no lookup in the store; when Firebase is not initialised,
`verifyIdToken` is not called. -/
theorem rejected_token_passes_through (S : Strapi) (auth : Option String)
    (u0 : Option Identity) (tok e : String)
    (ht : extractToken auth = some tok) (hne : tok ≠ "")
    (hv : S.jwtVerify tok = Outcome.throws e)
    (hB : truthyNum S.firebaseApps = false ∨ ∃ e2, S.verifyIdToken tok = Outcome.throws e2) :
    (middleware S auth u0).1 = Signal.returned ∧
      (middleware S auth u0).2.user = u0 ∧
      (middleware S auth u0).2.trace.count Event.next = 1 ∧
      (∀ u, Event.setUser u ∉ (middleware S auth u0).2.trace) ∧
      (∀ id, Event.findOne id ∉ (middleware S auth u0).2.trace) ∧
      (∀ uid, Event.findMany uid ∉ (middleware S auth u0).2.trace) ∧
      (truthyNum S.firebaseApps = false →
        ∀ t, Event.verifyIdToken t ∉ (middleware S auth u0).2.trace) := by
  have h := middleware_jwt_throws S auth u0 tok e ht hne hv
  cases ha : truthyNum S.firebaseApps with
  | false =>
    rw [runB_unavailable S tok _ ha] at h
    simp [h, List.count_cons]
  | true =>
    rcases hB with hB | ⟨e2, hB⟩
    · simp [ha] at hB
    · rw [runB_verify_throws S tok _ e2 ha hB] at h
      simp [h, List.count_cons]

theorem rejected_token_passes_through_witness :
    (middleware rejectingServices (some "Bearer garbage") none).1 = Signal.returned ∧
      (middleware rejectingServices (some "Bearer garbage") none).2.user = none ∧
      (middleware rejectingServices (some "Bearer garbage") none).2.trace.count Event.next = 1 ∧
      (∀ u, Event.setUser u ∉
        (middleware rejectingServices (some "Bearer garbage") none).2.trace) ∧
      (∀ id, Event.findOne id ∉
        (middleware rejectingServices (some "Bearer garbage") none).2.trace) ∧
      (∀ uid, Event.findMany uid ∉
        (middleware rejectingServices (some "Bearer garbage") none).2.trace) ∧
      (truthyNum rejectingServices.firebaseApps = false →
        ∀ t, Event.verifyIdToken t ∉
          (middleware rejectingServices (some "Bearer garbage") none).2.trace) :=
  rejected_token_passes_through rejectingServices (some "Bearer garbage") none "garbage"
    "jwt malformed" (by decide) (by decide) (by decide) (Or.inl (by decide))

/-- C7, as stated, fails: the store returns `[bob, alice]` for the verified
subject, exactly one entry (`alice`) is not blocked, and the middleware
assigns nothing, because the first entry is the blocked `bob`. -/
theorem single_viable_match_not_first :
    duplicateUidServices.jwtVerify "tok" = Outcome.throws "jwt malformed" ∧
    duplicateUidServices.verifyIdToken "tok" = Outcome.returns (some { uid := some "fb-1" }) ∧
    duplicateUidServices.findMany "fb-1" = Outcome.returns (some [bob, alice]) ∧
    [bob, alice].filter (fun u => !u.blocked) = [alice] ∧
    (middleware duplicateUidServices (some "Bearer tok") none).2.user = none ∧
    Event.setUser alice ∉ (middleware duplicateUidServices (some "Bearer tok") none).2.trace := by
  decide

/-- C7, amended: when Strategy A rejects the token and Strategy B verifies it
with subject `uid`, the middleware looks at the first entry only of the list
the store returns for `firebaseUid = uid`: if that entry is not blocked it is
assigned to `ctx.state.user`, whatever follows it; if the list is empty or its
first entry is blocked, `ctx.state.user` is left as it was. -/
theorem first_match_decides (S : Strapi) (auth : Option String) (u0 : Option Identity)
    (tok e uid : String) (users : List Identity)
    (ht : extractToken auth = some tok) (hne : tok ≠ "")
    (hv : S.jwtVerify tok = Outcome.throws e)
    (ha : truthyNum S.firebaseApps = true)
    (hd : S.verifyIdToken tok = Outcome.returns (some { uid := some uid })) (hu : uid ≠ "")
    (hm : S.findMany uid = Outcome.returns (some users)) :
    (middleware S auth u0).1 = Signal.returned ∧
      (middleware S auth u0).2.trace.count Event.next = 1 ∧
      (∀ first rest, users = first :: rest → first.blocked = false →
        (middleware S auth u0).2.user = some first ∧
          Event.setUser first ∈ (middleware S auth u0).2.trace) ∧
      ((users = [] ∨ ∃ first rest, users = first :: rest ∧ first.blocked = true) →
        (middleware S auth u0).2.user = u0 ∧
          ∀ u, Event.setUser u ∉ (middleware S auth u0).2.trace) := by
  have h := middleware_jwt_throws S auth u0 tok e ht hne hv
  cases users with
  | nil =>
    rw [runB_no_viable S tok uid _ ha hd hu (Or.inr (Or.inr (Or.inl hm)))] at h
    simp [h, List.count_cons]
  | cons first rest =>
    cases hb : first.blocked with
    | true =>
      rw [runB_no_viable S tok uid _ ha hd hu (Or.inr (Or.inr (Or.inr ⟨first, rest, hm, hb⟩)))]
        at h
      simp [h, hb, List.count_cons]
    | false =>
      rw [runB_viable S tok uid _ first rest ha hd hu hm hb] at h
      simp only [h]
      simp_all [List.count_cons]

theorem first_match_decides_witness :
    (middleware firebaseServices (some "Bearer tok") none).2.user = some alice ∧
      Event.setUser alice ∈ (middleware firebaseServices (some "Bearer tok") none).2.trace :=
  (first_match_decides firebaseServices (some "Bearer tok") none "tok" "jwt malformed" "fb-1"
    [alice, bob] (by decide) (by decide) (by decide) (by decide) (by decide) (by decide)
    (by decide)).2.2.1 alice [bob] rfl (by decide)

/-! ## Claims about `beforeUpdate` -/

theorem applyTransition_status (now : Nat) (st : Field String) (data : UpdateData) :
    (applyTransition now st data).status = data.status := by
  unfold applyTransition
  split_ifs <;> rfl

theorem applyTransition_idem (now : Nat) (st : Field String) (data : UpdateData) :
    applyTransition now st { applyTransition now st data with status := st } =
      { applyTransition now st data with status := st } := by
  unfold applyTransition
  split_ifs <;> rfl

theorem beforeUpdate_changed (findOne : Nat → Outcome (Option Photo)) (now id : Nat)
    (data : UpdateData) (photo : Photo) (hs : data.status.truthyStr = true) (hid : id ≠ 0)
    (hf : findOne id = Outcome.returns (some photo)) (hc : photo.status ≠ data.status) :
    beforeUpdate findOne now (some id) data =
      (Signal.done, { applyTransition now data.status data with status := data.status }) := by
  simp [beforeUpdate, tryCatch, beforeUpdateBody, hs, truthyNum, hid, hf, hc]

theorem beforeUpdate_cases (findOne : Nat → Outcome (Option Photo)) (now : Nat)
    (whereId : Option Nat) (data : UpdateData) :
    beforeUpdate findOne now whereId data = (Signal.done, data) ∨
      ∃ id photo, whereId = some id ∧ id ≠ 0 ∧ data.status.truthyStr = true ∧
        findOne id = Outcome.returns (some photo) ∧ photo.status ≠ data.status := by
  cases hs : data.status.truthyStr with
  | false => left; simp [beforeUpdate, tryCatch, beforeUpdateBody, hs]
  | true =>
    cases whereId with
    | none => left; simp [beforeUpdate, tryCatch, beforeUpdateBody, hs, truthyNum]
    | some id =>
      by_cases hid : id = 0
      · left; simp [beforeUpdate, tryCatch, beforeUpdateBody, hs, truthyNum, hid]
      · rcases hf : findOne id with (_ | photo) | e
        · left; simp [beforeUpdate, tryCatch, beforeUpdateBody, hs, truthyNum, hid, hf]
        · by_cases hc : photo.status = data.status
          · left; simp [beforeUpdate, tryCatch, beforeUpdateBody, hs, truthyNum, hid, hf, hc]
          · right; exact ⟨id, photo, rfl, hid, rfl, hf, hc⟩
        · left; simp [beforeUpdate, tryCatch, beforeUpdateBody, hs, truthyNum, hid, hf]

/-- C8: for an update whose `data.status` is one of pending, approved and
rejected, whose `where.id` is truthy, and whose stored photo exists with another
status, `beforeUpdate` completes and leaves in the update data: for approved,
`approved_at` at the clock reading and `rejected_at`, `rejection_reason` null;
for rejected, `rejected_at` at the clock reading, `approved_at` null and the
`rejection_reason` of the update untouched; for pending, all three null.  In
every case `approved_at` or `rejected_at` is null, and nothing else changes. -/
theorem status_change_sets_one_consistent_set (findOne : Nat → Outcome (Option Photo))
    (now id : Nat) (data : UpdateData) (photo : Photo) (s : String)
    (hs : data.status = Field.val s) (hmem : s = "pending" ∨ s = "approved" ∨ s = "rejected")
    (hid : id ≠ 0) (hf : findOne id = Outcome.returns (some photo))
    (hc : photo.status ≠ data.status) :
    (beforeUpdate findOne now (some id) data).1 = Signal.done ∧
      (beforeUpdate findOne now (some id) data).2.status = Field.val s ∧
      (beforeUpdate findOne now (some id) data).2.extra = data.extra ∧
      (s = "approved" →
        (beforeUpdate findOne now (some id) data).2.approved_at = Field.val now ∧
        (beforeUpdate findOne now (some id) data).2.rejected_at = Field.null ∧
        (beforeUpdate findOne now (some id) data).2.rejection_reason = Field.null) ∧
      (s = "rejected" →
        (beforeUpdate findOne now (some id) data).2.rejected_at = Field.val now ∧
        (beforeUpdate findOne now (some id) data).2.approved_at = Field.null ∧
        (beforeUpdate findOne now (some id) data).2.rejection_reason = data.rejection_reason) ∧
      (s = "pending" →
        (beforeUpdate findOne now (some id) data).2.approved_at = Field.null ∧
        (beforeUpdate findOne now (some id) data).2.rejected_at = Field.null ∧
        (beforeUpdate findOne now (some id) data).2.rejection_reason = Field.null) ∧
      ((beforeUpdate findOne now (some id) data).2.approved_at = Field.null ∨
        (beforeUpdate findOne now (some id) data).2.rejected_at = Field.null) := by
  have ht : data.status.truthyStr = true := by
    rcases hmem with rfl | rfl | rfl <;> simp [hs, Field.truthyStr]
  rw [beforeUpdate_changed findOne now id data photo ht hid hf hc, hs]
  rcases hmem with rfl | rfl | rfl <;> simp [applyTransition]

theorem status_change_sets_one_consistent_set_witness :
    (beforeUpdate photoStore 1700 (some 3) rejectUpdate).2.rejected_at = Field.val 1700 ∧
      (beforeUpdate photoStore 1700 (some 3) rejectUpdate).2.approved_at = Field.null ∧
      (beforeUpdate photoStore 1700 (some 3) rejectUpdate).2.rejection_reason =
        Field.val "blurred" :=
  (status_change_sets_one_consistent_set photoStore 1700 3 rejectUpdate pendingPhoto "rejected"
    rfl (by decide) (by decide) rfl (by decide)).2.2.2.2.1 rfl

/-- C9: when the fetch of the current photo throws, `beforeUpdate` completes
without raising and the update data is exactly what it received, whatever
`data.status` and `where.id` are. -/
theorem failed_fetch_leaves_update_untouched (findOne : Nat → Outcome (Option Photo))
    (now id : Nat) (data : UpdateData) (e : String)
    (hf : findOne id = Outcome.throws e) :
    beforeUpdate findOne now (some id) data = (Signal.done, data) := by
  rcases beforeUpdate_cases findOne now (some id) data with h | ⟨id2, photo, hw, _, _, hf2, _⟩
  · exact h
  · cases hw
    rw [hf] at hf2
    cases hf2

theorem failed_fetch_leaves_update_untouched_witness :
    beforeUpdate brokenPhotoStore 1700 (some 3) rejectUpdate = (Signal.done, rejectUpdate) :=
  failed_fetch_leaves_update_untouched brokenPhotoStore 1700 3 rejectUpdate "ECONNREFUSED" rfl

/-- C10: `beforeUpdate` is idempotent: run again on its own output, against
the same answer of the store and the same clock reading, it completes the same
way and yields the same update data. -/
theorem beforeUpdate_idempotent (findOne : Nat → Outcome (Option Photo)) (now : Nat)
    (whereId : Option Nat) (data : UpdateData) :
    beforeUpdate findOne now whereId (beforeUpdate findOne now whereId data).2 =
      beforeUpdate findOne now whereId data := by
  rcases beforeUpdate_cases findOne now whereId data with h | ⟨id, photo, rfl, hid, hs, hf, hc⟩
  · rw [h]; exact h
  · rw [beforeUpdate_changed findOne now id data photo hs hid hf hc]
    rw [beforeUpdate_changed findOne now id _ photo (by simpa using hs) hid hf (by simpa using hc)]
    simp only [applyTransition_idem]

end StrapiBlog
